import Mathlib

/-!
Verification development for the workout-reminder service.

The embedding below translates the time conversion module
(app/time_utils.py), the notification scheduler (app/scheduler.py), the
daily-log persistence operations (app/database.py) and the relevant
handlers of app/bot.py into Lean. Instants are modelled as seconds since
the Unix epoch (Int); wall-clock values are seconds since the epoch of
the naive local calendar. Python floor division and modulo correspond to
Int.fdiv and Int.emod. Dynamic typing errors that matter to the claims
(calling a string method on a datetime value) are modelled with an
explicit value union and an Except monad.
-/

/-- Number of seconds in one day, the constant behind timedelta(days=1). -/
def secsPerDay : Int := 86400

/-- Start of the calendar day containing a wall-clock value, in seconds.
This models datetime.combine(x.date(), time(0)) for a naive value x. -/
def dateStart (wall : Int) : Int := secsPerDay * Int.fdiv wall secsPerDay

/-- A parsed HH:MM value, the result of time.fromisoformat on a valid
HH:MM string. -/
structure TimeHM where
  hour : Nat
  minute : Nat
deriving DecidableEq

/-- Seconds after local midnight denoted by an HH:MM value. -/
def TimeHM.secs (t : TimeHM) : Int := (t.hour : Int) * 3600 + (t.minute : Int) * 60

/-- Validity of an HH:MM value: the field ranges accepted by
time.fromisoformat. -/
def TimeHM.valid (t : TimeHM) : Prop := t.hour < 24 ∧ t.minute < 60

/-- A timezone as the zoneinfo rules consume it: an offset (seconds east
of UTC) as a function of the instant, used by datetime.now(tz), and an
offset as a function of the naive wall clock with fold zero, used when a
wall time is localized or compared. -/
structure Timezone where
  offsetAtInstant : Int → Int
  offsetAtWall : Int → Int

/-- A timezone whose offset never changes. -/
def tzConst (c : Int) : Timezone := ⟨fun _ => c, fun _ => c⟩

/-- Europe/Moscow: fixed UTC+3 (no DST) during the periods the claims
reference. -/
def MOSCOW_TZ : Timezone := tzConst 10800

/-- UTC as a timezone value. -/
def UTC_TZ : Timezone := tzConst 0

/-- Europe/Berlin around the fall-back transition of 2024-10-27: offset
UTC+2 (CEST) for instants before 2024-10-27T01:00:00Z, UTC+1 (CET)
afterwards; on the wall clock the change point is 03:00 local, and the
ambiguous hour resolves with fold zero to the earlier offset. -/
def berlinFall2024 : Timezone :=
  ⟨fun t => if t < 1729990800 then 7200 else 3600,
   fun w => if w < 1729998000 then 7200 else 3600⟩

/-- Embeds _normalize_local_datetime of app/time_utils.py. Returns the
wall-clock seconds (in the given timezone) of the chosen local datetime:
today at the given time, advanced one day when that instant is already
at or before now. Aware comparison compares instants, and an aware wall
time w in tz denotes the instant w - offsetAtWall w. -/
def normalize_local_datetime (t : TimeHM) (tz : Timezone) (now : Int) : Int :=
  let now_local_wall := now + tz.offsetAtInstant now
  let candidate := dateStart now_local_wall + t.secs
  if candidate - tz.offsetAtWall candidate ≤ now then candidate + secsPerDay else candidate

/-- Embeds convert_local_time_to_utc of app/time_utils.py: the
normalized local datetime converted to UTC, i.e. the instant it denotes. -/
def convert_local_time_to_utc (t : TimeHM) (tz : Timezone) (now : Int) : Int :=
  let w := normalize_local_datetime t tz now
  w - tz.offsetAtWall w

/-- Embeds convert_range_to_utc of app/time_utils.py: normalize the
start, place the end on the same local calendar day, advance the end one
day when it is not after the start, convert both to UTC. -/
def convert_range_to_utc (s e : TimeHM) (tz : Timezone) (now : Int) : Int × Int :=
  let sWall := normalize_local_datetime s tz now
  let eWall0 := dateStart sWall + e.secs
  let eWall :=
    if eWall0 - tz.offsetAtWall eWall0 ≤ sWall - tz.offsetAtWall sWall
    then eWall0 + secsPerDay else eWall0
  (sWall - tz.offsetAtWall sWall, eWall - tz.offsetAtWall eWall)

/-- Python exceptions that the embedded code can raise. -/
inductive PyErr where
  | attributeError
  | valueError
  | indexError
  | telegramForbidden
  | telegramError
deriving DecidableEq

/-- A value that is either a Python str or a datetime, as it flows
between app/time_utils.py and app/scheduler.py. The datetime case
carries the UTC instant the value denotes. -/
inductive PyStrOrDatetime where
  | ofStr (s : String)
  | ofDatetime (utcInstant : Int)
deriving DecidableEq

/-- Dynamic dispatch of the str.split method: defined on strings,
raising AttributeError on a datetime. -/
def pySplit (v : PyStrOrDatetime) (sep : String) : Except PyErr (List String) :=
  match v with
  | PyStrOrDatetime.ofStr s => Except.ok (s.splitOn sep)
  | PyStrOrDatetime.ofDatetime _ => Except.error PyErr.attributeError

/-- The int() constructor on a numeric string, as used after split. -/
def pyInt (s : String) : Int := (s.toInt?).getD 0

/-- Embeds WorkoutScheduler.schedule_fixed of app/scheduler.py. The
source computes utc_time = convert_local_time_to_utc(...), which is an
aware datetime, then evaluates utc_time.split which only exists on
strings. On success the result would be the (hour, minute) pair handed
to a daily UTC CronTrigger. -/
def schedule_fixed (local_time : TimeHM) (tz : Timezone) (now : Int) :
    Except PyErr (Int × Int) := do
  let utc_time := convert_local_time_to_utc local_time tz now
  let parts ← pySplit (PyStrOrDatetime.ofDatetime utc_time) ":"
  match parts with
  | [h, m] => Except.ok (pyInt h, pyInt m)
  | _ => Except.error PyErr.valueError

/-- First fire instant of a daily UTC cron trigger. Modelled from the
spec: the scheduler arms a job that fires every day at the given UTC
wall-clock time (the apscheduler CronTrigger itself is an external
dependency, not part of src). The first fire is the earliest instant
strictly after now whose UTC time of day matches. -/
def cronNextFire (hour minute : Nat) (now : Int) : Int :=
  let s : Int := (hour : Int) * 3600 + (minute : Int) * 60
  let base := dateStart now + s
  if now < base then base else base + secsPerDay

/-- The window and chosen fire instant produced by one _range_job run. -/
structure RangeWindow where
  startDt : Int
  endDt : Int
  fireDt : Int
deriving DecidableEq

/-- Embeds the body of WorkoutScheduler._range_job of app/scheduler.py
once the HH:MM arguments are parsed: build the window on the current UTC
date, advance the end one day when it is not after the start, advance
the whole window one day when now is at or past the end, then pick
start plus choice seconds where choice models random.randint(0,
span_seconds), which is inclusive on both ends. -/
def range_job (start_t end_t : TimeHM) (now : Int) (choice : Nat) : RangeWindow :=
  let today := dateStart now
  let start_dt := today + start_t.secs
  let end_dt0 := today + end_t.secs
  let end_dt1 := if end_dt0 ≤ start_dt then end_dt0 + secsPerDay else end_dt0
  let advance := end_dt1 ≤ now
  let start_dt2 := if advance then start_dt + secsPerDay else start_dt
  let end_dt2 := if advance then end_dt1 + secsPerDay else end_dt1
  { startDt := start_dt2, endDt := end_dt2, fireDt := start_dt2 + (choice : Int) }

/-- Embeds the entry of WorkoutScheduler._range_job: its first action is
to call split on both arguments, so a datetime argument raises
AttributeError before any window is computed. -/
def range_job_dyn (start_v end_v : PyStrOrDatetime) (now : Int) (choice : Nat) :
    Except PyErr RangeWindow := do
  let sparts ← pySplit start_v ":"
  let eparts ← pySplit end_v ":"
  match sparts, eparts with
  | [sh, sm], [eh, em] =>
      Except.ok (range_job ⟨(pyInt sh).toNat, (pyInt sm).toNat⟩
        ⟨(pyInt eh).toNat, (pyInt em).toNat⟩ now choice)
  | _, _ => Except.error PyErr.valueError

/-- Embeds WorkoutScheduler.schedule_range of app/scheduler.py: converts
the local range to a pair of aware datetimes and passes them to
_range_job, which expects HH:MM strings. -/
def schedule_range (start_local end_local : TimeHM) (tz : Timezone) (now : Int)
    (choice : Nat) : Except PyErr RangeWindow :=
  let p := convert_range_to_utc start_local end_local tz now
  range_job_dyn (PyStrOrDatetime.ofDatetime p.1) (PyStrOrDatetime.ofDatetime p.2) now choice

/-- One exercise entry of a daily log, with the two keys the embedded
operations consult: the completion flag, read as ex.get("done", False),
and the optional point weight, read as ex.get("points", 1). -/
structure Exercise where
  name : String
  points : Option Int
  done : Bool
deriving DecidableEq

/-- The JSON value stored in the exercises_done column: either a legacy
plain list or a mapping from session name to exercise list. -/
inductive StoredExercises where
  | pylist (xs : List Exercise)
  | pydict (entries : List (String × List Exercise))
deriving DecidableEq

/-- Lookup in an insertion-ordered dict. -/
def dictLookup (entries : List (String × List Exercise)) (k : String) :
    Option (List Exercise) :=
  match entries with
  | [] => none
  | (k0, v) :: rest => if k0 = k then some v else dictLookup rest k

/-- Assignment d[k] = v on an insertion-ordered dict: replace in place
or append at the end. -/
def dictInsert (entries : List (String × List Exercise)) (k : String)
    (v : List Exercise) : List (String × List Exercise) :=
  match entries with
  | [] => [(k, v)]
  | (k0, v0) :: rest => if k0 = k then (k0, v) :: rest else (k0, v0) :: dictInsert rest k v

/-- One row of the daily_logs table as load_daily_log returns it. The
points column is NOT NULL in every row written by update_daily_log. -/
structure DailyLog where
  exercises_done : StoredExercises
  difficulty_rate : Option String
  points : Int
deriving DecidableEq

/-- Embeds _log_exercises of app/bot.py: the exercise list of one
session, empty when the log is missing; a legacy list counts as the main
session. -/
def log_exercises (logOpt : Option DailyLog) (session : String) : List Exercise :=
  match logOpt with
  | none => []
  | some log =>
    match log.exercises_done with
    | StoredExercises.pydict entries => (dictLookup entries session).getD []
    | StoredExercises.pylist xs => if session = "main" then xs else []

/-- Embeds _store_log_exercises of app/bot.py: wrap a legacy list as the
main session, then assign the given session list. -/
def store_log_exercises (logOpt : Option DailyLog) (session : String)
    (exs : List Exercise) : List (String × List Exercise) :=
  let existing : List (String × List Exercise) :=
    match logOpt with
    | none => []
    | some l =>
      match l.exercises_done with
      | StoredExercises.pydict entries => entries
      | StoredExercises.pylist xs => [("main", xs)]
  dictInsert existing session exs

/-- Embeds update_daily_log of app/database.py: an upsert where the
exercise payload always overwrites, while difficulty_rate and points use
COALESCE(excluded.value, old.value); a fresh row stores points
COALESCE(points, 0). -/
def update_daily_log (db : Option DailyLog) (exs : StoredExercises)
    (rate : Option String) (pts : Option Int) : DailyLog :=
  match db with
  | none =>
    { exercises_done := exs, difficulty_rate := rate, points := pts.getD 0 }
  | some old =>
    { exercises_done := exs
      difficulty_rate := match rate with | some r => some r | none => old.difficulty_rate
      points := match pts with | some p => p | none => old.points }

/-- Embeds add_points of app/database.py: an UPDATE that adds the delta
to the points of an existing row and touches nothing else; with no row
it changes nothing. -/
def add_points (db : Option DailyLog) (delta : Int) : Option DailyLog :=
  match db with
  | none => none
  | some l => some { l with points := l.points + delta }

/-- Python expression x or "skipped" for the stored difficulty_rate:
None and the empty string are falsy. -/
def py_or_skipped (r : Option String) : String :=
  match r with
  | none => "skipped"
  | some s => if s = "" then "skipped" else s

/-- Embeds close_previous_day_if_pending of app/bot.py, acting on the
loaded log of the previous day: no log or truthy points means return
without writing; otherwise rewrite the row with the same exercises, the
stored rate or "skipped", and zero points. -/
def close_previous_day_if_pending (prev : Option DailyLog) : Option DailyLog :=
  match prev with
  | none => none
  | some log =>
    if log.points ≠ 0 then some log
    else some (update_daily_log (some log) log.exercises_done
      (some (py_or_skipped log.difficulty_rate)) (some 0))

/-- Normalization of a Python list index: negative indices count from
the end, out of range raises IndexError. -/
def pyNorm (n : Nat) (i : Int) : Option Nat :=
  let j := if i < 0 then i + (n : Int) else i
  if 0 ≤ j ∧ j < (n : Int) then some j.toNat else none

/-- Net effect of completed[j] = flag followed by copying the completed
list back onto the done keys: entry j gets the flag, others keep their
flag. -/
def toggleAt (xs : List Exercise) (j : Nat) (flag : Bool) : List Exercise :=
  match xs, j with
  | [], _ => []
  | ex :: rest, 0 => { ex with done := flag } :: rest
  | ex :: rest, Nat.succ j0 => ex :: toggleAt rest j0 flag

/-- Embeds sum(ex.get("points", 1) for ex in exercises if
ex.get("done")). -/
def sumPoints (xs : List Exercise) : Int :=
  ((xs.filter fun ex => ex.done).map fun ex => ex.points.getD 1).sum

/-- Observable outcome of the exercise callback handler. -/
inductive CbOutcome where
  | noPlan
  | additionalCancelled
  | alreadyDone
  | skippedDay
  | completedMain (pts : Int)
  | completedAdditional (pts : Int)
  | updated
deriving DecidableEq

/-- Embeds handle_exercise_callback of app/bot.py on the loaded log of
today. Index -1 is the skip button: for the additional session it only
edits the message; for the main session it is refused when the log has
truthy points, and otherwise rewrites the row with rate "skipped" and
zero points. A toggle stores the updated session list, and when every
entry is done it either adds the points for the additional session or
writes rate "completed" with the points for the main session. Returns
the row after the handler and the observable outcome. -/
def handle_exercise_callback (logOpt : Option DailyLog) (session : String)
    (index : Int) (flag : Bool) : Except PyErr (Option DailyLog × CbOutcome) :=
  match logOpt with
  | none => Except.ok (none, CbOutcome.noPlan)
  | some log =>
    let exercises := log_exercises (some log) session
    if index = -1 then
      if session = "additional" then Except.ok (some log, CbOutcome.additionalCancelled)
      else if log.points ≠ 0 then Except.ok (some log, CbOutcome.alreadyDone)
      else
        Except.ok (some (update_daily_log (some log)
            (StoredExercises.pydict (store_log_exercises (some log) session exercises))
            (some "skipped") (some 0)), CbOutcome.skippedDay)
    else
      match pyNorm exercises.length index with
      | none => Except.error PyErr.indexError
      | some j =>
        let exercises2 := toggleAt exercises j flag
        let all_done := exercises2.all fun ex => ex.done
        let log1 := update_daily_log (some log)
          (StoredExercises.pydict (store_log_exercises (some log) session exercises2))
          none none
        if all_done then
          let pts := sumPoints exercises2
          if session = "additional" then
            Except.ok (add_points (some log1) pts, CbOutcome.completedAdditional pts)
          else
            Except.ok (some (update_daily_log (some log1)
                (StoredExercises.pydict (store_log_exercises (some log) session exercises2))
                (some "completed") (some pts)), CbOutcome.completedMain pts)
        else
          Except.ok (some log1, CbOutcome.updated)

/-- The row that the bare store step of a toggle writes: the toggled
session list stored through update_daily_log with no rate and no points,
as in the all_done-independent write of handle_exercise_callback. -/
def toggle_result_log (log : DailyLog) (session : String) (i : Nat) (flag : Bool) : DailyLog :=
  update_daily_log (some log)
    (StoredExercises.pydict (store_log_exercises (some log) session
      (toggleAt (log_exercises (some log) session) i flag)))
    none none

/-- The row written by the main-session all-done branch of
handle_exercise_callback: the toggled list stored again together with
rate completed and the computed points. -/
def main_completion_log (log : DailyLog) (i : Nat) : DailyLog :=
  update_daily_log (some (toggle_result_log log "main" i true))
    (StoredExercises.pydict (store_log_exercises (some log) "main"
      (toggleAt (log_exercises (some log) "main") i true)))
    (some "completed")
    (some (sumPoints (toggleAt (log_exercises (some log) "main") i true)))

/-- The row written by the additional-session all-done branch of
handle_exercise_callback: the bare store followed by add_points, which
only increases the points field. -/
def additional_completion_log (log : DailyLog) (i : Nat) : DailyLog :=
  { toggle_result_log log "additional" i true with
    points := (toggle_result_log log "additional" i true).points
      + sumPoints (toggleAt (log_exercises (some log) "additional") i true) }

/-- Outcome of one bot.send_message attempt, the opaque delivery result
the scheduler callback depends on. -/
inductive SendOutcome where
  | delivered
  | forbidden
  | otherError
deriving DecidableEq

/-- Result of bot.send_message for a given delivery outcome: the
unreachable recipient raises TelegramForbiddenError, other failures
raise a different Telegram error. -/
def send_message_result (o : SendOutcome) : Except PyErr Unit :=
  match o with
  | SendOutcome.delivered => Except.ok ()
  | SendOutcome.forbidden => Except.error PyErr.telegramForbidden
  | SendOutcome.otherError => Except.error PyErr.telegramError

/-- Embeds safe_send of app/bot.py: try the send and swallow exactly
TelegramForbiddenError. -/
def safe_send (o : SendOutcome) : Except PyErr Unit :=
  match send_message_result o with
  | Except.ok _ => Except.ok ()
  | Except.error PyErr.telegramForbidden => Except.ok ()
  | Except.error e => Except.error e

/-- The built-in default exercise set FALLBACK_WORKOUT of app/bot.py;
the entries carry no done or points keys. -/
def FALLBACK_WORKOUT : List Exercise :=
  [⟨"Отжимания", none, false⟩, ⟨"Приседания", none, false⟩, ⟨"Планка", none, false⟩]

/-- Truthiness of existing_log and existing_log.get("points"). -/
def pointsSet (l : Option DailyLog) : Bool :=
  match l with
  | some x => x.points ≠ 0
  | none => false

/-- One row as get_plan_day and get_plan_for_date of app/database.py
return it: the 3-tuple (is_rest_day, exercise_list, title). -/
structure PlanRow where
  is_rest : Bool
  exercises : List Exercise
  title : Option String
deriving DecidableEq

/-- Arity rule of Python sequence unpacking: assigning a sequence of
length n to k targets succeeds exactly when n = k and raises ValueError
otherwise. -/
def pyUnpackCheck (n targets : Nat) : Except PyErr Unit :=
  if n = targets then Except.ok () else Except.error PyErr.valueError

/-- Embeds scheduled_push of app/bot.py over the per-user state it
touches: the registered user, the log rows of yesterday and today, the
plan row for today as get_plan_for_date returns it, and the delivery
outcome every send attempt of this firing sees. The statement
is_rest, exercises = plan unpacks the three-element plan tuple into two
targets, so the plan branch runs the arity check of a 3 to 2 unpacking
before anything else. Returns the pair (yesterday row, today row) after
the callback, or the exception it raises. -/
def scheduled_push (user : Option Unit) (prevLog : Option DailyLog)
    (plan : Option PlanRow) (existingLog : Option DailyLog)
    (o : SendOutcome) : Except PyErr (Option DailyLog × Option DailyLog) :=
  match user with
  | none => Except.ok (prevLog, existingLog)
  | some _ =>
    let prev2 := close_previous_day_if_pending prevLog
    match plan with
    | none =>
      match safe_send o with
      | Except.error err => Except.error err
      | Except.ok _ =>
        let exercises :=
          match existingLog with
          | some l => log_exercises (some l) "main"
          | none => FALLBACK_WORKOUT
        if pointsSet existingLog then Except.ok (prev2, existingLog)
        else
          let newLog := update_daily_log existingLog (StoredExercises.pylist exercises)
            none none
          match safe_send o with
          | Except.error err => Except.error err
          | Except.ok _ => Except.ok (prev2, some newLog)
    | some row =>
      match pyUnpackCheck 3 2 with
      | Except.error err => Except.error err
      | Except.ok _ =>
        let is_rest := row.is_rest
        let planExs := row.exercises
        let exercises :=
          match existingLog with
          | some l =>
            let stored := log_exercises (some l) "main"
            if stored = [] then planExs else stored
          | none => planExs
        if is_rest then
          match safe_send o with
          | Except.error err => Except.error err
          | Except.ok _ => Except.ok (prev2, existingLog)
        else if pointsSet existingLog then Except.ok (prev2, existingLog)
        else
          let newLog := update_daily_log existingLog (StoredExercises.pylist exercises)
            none none
          match safe_send o with
          | Except.error err => Except.error err
          | Except.ok _ => Except.ok (prev2, some newLog)

/-- Decidable equality of Except results, so concrete runs of the
embedded handlers can be checked by decide. -/
instance exceptDecEq {ε α : Type} [DecidableEq ε] [DecidableEq α] :
    DecidableEq (Except ε α) := fun a b =>
  match a, b with
  | Except.ok x, Except.ok y =>
    if h : x = y then Decidable.isTrue (by rw [h])
    else Decidable.isFalse (by intro hc; cases hc; exact h rfl)
  | Except.error x, Except.error y =>
    if h : x = y then Decidable.isTrue (by rw [h])
    else Decidable.isFalse (by intro hc; cases hc; exact h rfl)
  | Except.ok _, Except.error _ => Decidable.isFalse (by intro hc; cases hc)
  | Except.error _, Except.ok _ => Decidable.isFalse (by intro hc; cases hc)

/-- The user cap MAX_USERS of app/bot.py. -/
def MAX_USERS : Nat := 2

/-- An incoming event as AccessMiddleware inspects it: the chat id when
the event exposes one, and whether the event is a Message. -/
structure TgEvent where
  chat : Option Int
  isMessage : Bool

/-- Decision of the middleware gate. -/
inductive GateResult where
  | passed
  | rejectedNotice
  | rejectedSilent
deriving DecidableEq

/-- Embeds AccessMiddleware of app/bot.py over the registered chat ids:
events without a chat pass, events from registered chats pass, and an
unregistered chat is refused once the user count reached MAX_USERS,
with a notice exactly when the event is a Message. -/
def access_middleware (users : List Int) (e : TgEvent) : GateResult :=
  match e.chat with
  | none => GateResult.passed
  | some c =>
    if c ∈ users then GateResult.passed
    else if MAX_USERS ≤ users.length then
      (if e.isMessage then GateResult.rejectedNotice else GateResult.rejectedSilent)
    else GateResult.passed

/-- One message-path step of the registered set: when the gate passes,
the handler (start or ensure_profile) upserts a row for the chat of the
event; a rejected event changes nothing. -/
def message_path_step (users : List Int) (e : TgEvent) : List Int :=
  match access_middleware users e with
  | GateResult.passed =>
    match e.chat with
    | some c => if c ∈ users then users else c :: users
    | none => users
  | _ => users

/-- Claim C1. For a user in Europe/Moscow with fixed time 09:00 at
reference instant 2024-01-01T08:00:00Z, the time conversion yields
2024-01-02T06:00:00Z (09:00 Moscow the next day) and a daily UTC cron at
06:00 would first fire exactly then, but schedule_fixed itself raises
AttributeError: it calls the str method split on the datetime that
convert_local_time_to_utc returns, so no job is armed. -/
theorem C1_schedule_fixed_type_error :
    convert_local_time_to_utc ⟨9, 0⟩ MOSCOW_TZ 1704096000 = 1704175200
    ∧ cronNextFire 6 0 1704096000 = 1704175200
    ∧ schedule_fixed ⟨9, 0⟩ MOSCOW_TZ 1704096000 = Except.error PyErr.attributeError := by
  refine ⟨by decide, by decide, by decide⟩

/-- Claim C2. A range job first armed at 2024-01-01T10:00:00Z over the
UTC window 22:00 to 23:00 can fire at 2024-01-01T22:30:00Z; the re-arm
that _wrap performs right after the callback recomputes the window from
the current instant, and since 22:30 is before the window end the
re-armed window is the very same window of the same day, not the window
advanced by 24 hours. -/
theorem C2_rearm_window_not_advanced :
    (range_job ⟨22, 0⟩ ⟨23, 0⟩ 1704103200 1800).startDt = 1704146400
    ∧ (range_job ⟨22, 0⟩ ⟨23, 0⟩ 1704103200 1800).endDt = 1704150000
    ∧ (range_job ⟨22, 0⟩ ⟨23, 0⟩ 1704103200 1800).fireDt = 1704148200
    ∧ (range_job ⟨22, 0⟩ ⟨23, 0⟩ 1704148200 0).startDt = 1704146400
    ∧ (range_job ⟨22, 0⟩ ⟨23, 0⟩ 1704148200 0).endDt = 1704150000
    ∧ ¬ ((range_job ⟨22, 0⟩ ⟨23, 0⟩ 1704148200 0).startDt = 1704146400 + 86400) := by
  decide

/-- Claim C3, counterexample to the half-open version: at reference
2024-01-01T10:00:00Z the window for 22:00 to 23:00 has a span of 3600
seconds, randint may return the span itself, and then the chosen fire
instant equals the window end 2024-01-01T23:00:00Z, which does not lie
in the half-open window. -/
theorem C3_range_fire_endpoint_counterexample :
    (range_job ⟨22, 0⟩ ⟨23, 0⟩ 1704103200 3600).endDt
        - (range_job ⟨22, 0⟩ ⟨23, 0⟩ 1704103200 3600).startDt = 3600
    ∧ (range_job ⟨22, 0⟩ ⟨23, 0⟩ 1704103200 3600).fireDt = 1704150000
    ∧ (range_job ⟨22, 0⟩ ⟨23, 0⟩ 1704103200 3600).endDt = 1704150000
    ∧ ¬ ((range_job ⟨22, 0⟩ ⟨23, 0⟩ 1704103200 3600).fireDt
        < (range_job ⟨22, 0⟩ ⟨23, 0⟩ 1704103200 3600).endDt) := by
  decide

/-- Claim C3, amended: every fire instant a range job can choose lies in
the closed UTC window from start to end, both endpoints attainable, and
the concrete window computed for local 22:00 to 23:00 in a UTC+0 zone at
reference 2024-01-01T10:00:00Z is 2024-01-01T22:00:00Z to
2024-01-01T23:00:00Z. -/
theorem C3_range_fire_within_closed_window (s e : TimeHM) (now : Int) (choice : Nat)
    (h : (choice : Int) ≤ (range_job s e now choice).endDt - (range_job s e now choice).startDt) :
    ((range_job s e now choice).startDt ≤ (range_job s e now choice).fireDt
      ∧ (range_job s e now choice).fireDt ≤ (range_job s e now choice).endDt)
    ∧ convert_range_to_utc ⟨22, 0⟩ ⟨23, 0⟩ UTC_TZ 1704103200 = (1704146400, 1704150000) := by
  have hf : (range_job s e now choice).fireDt
      = (range_job s e now choice).startDt + (choice : Int) := rfl
  exact ⟨⟨by omega, by omega⟩, by decide⟩

/-- Witness for C3: a concrete in-range choice lands inside the closed
window. -/
theorem C3_range_fire_witness :
    ((range_job ⟨22, 0⟩ ⟨23, 0⟩ 1704103200 1800).startDt
        ≤ (range_job ⟨22, 0⟩ ⟨23, 0⟩ 1704103200 1800).fireDt
      ∧ (range_job ⟨22, 0⟩ ⟨23, 0⟩ 1704103200 1800).fireDt
        ≤ (range_job ⟨22, 0⟩ ⟨23, 0⟩ 1704103200 1800).endDt)
    ∧ convert_range_to_utc ⟨22, 0⟩ ⟨23, 0⟩ UTC_TZ 1704103200 = (1704146400, 1704150000) :=
  C3_range_fire_within_closed_window ⟨22, 0⟩ ⟨23, 0⟩ 1704103200 1800 (by decide)

/-- Claim C4, counterexample: with the real Europe/Berlin rules around
the fall-back of 2024-10-27, asking for 12:00 local at reference
2024-10-26T10:00:00Z (exactly 12:00 local) advances one local day and
returns 2024-10-27T11:00:00Z, which is 25 hours after the reference, so
the result is more than 24 hours ahead. -/
theorem C4_dst_counterexample :
    convert_local_time_to_utc ⟨12, 0⟩ berlinFall2024 1729936800 = 1730026800
    ∧ ¬ (convert_local_time_to_utc ⟨12, 0⟩ berlinFall2024 1729936800 ≤ 1729936800 + 86400) := by
  decide

/-- Claim C4, amended: over a timezone with a constant offset, the
converted instant reads the requested wall time, lies strictly after the
reference, and is at most 24 hours ahead. -/
theorem C4_fixed_offset_conversion (c : Int) (t : TimeHM) (now : Int) (hv : t.valid) :
    (convert_local_time_to_utc t (tzConst c) now + c) % 86400 = t.secs
    ∧ now < convert_local_time_to_utc t (tzConst c) now
    ∧ convert_local_time_to_utc t (tzConst c) now ≤ now + 86400 := by
  obtain ⟨hh, hm⟩ := hv
  simp only [convert_local_time_to_utc, normalize_local_datetime, dateStart, tzConst,
    secsPerDay, TimeHM.secs]
  rw [Int.fdiv_eq_ediv _ (by norm_num)]
  split <;> omega

/-- Witness for C4: the Moscow fixed-offset scenario of C1 satisfies all
three bounds. -/
theorem C4_conversion_witness :
    (convert_local_time_to_utc ⟨9, 0⟩ (tzConst 10800) 1704096000 + 10800) % 86400
        = TimeHM.secs ⟨9, 0⟩
    ∧ 1704096000 < convert_local_time_to_utc ⟨9, 0⟩ (tzConst 10800) 1704096000
    ∧ convert_local_time_to_utc ⟨9, 0⟩ (tzConst 10800) 1704096000 ≤ 1704096000 + 86400 :=
  C4_fixed_offset_conversion 10800 ⟨9, 0⟩ 1704096000 ⟨by decide, by decide⟩

/-- Normalizing a nonnegative in-range Python index is the identity. -/
lemma pyNorm_ofNat (n i : Nat) (h : i < n) : pyNorm n (i : Int) = some i := by
  simp only [pyNorm]
  have h1 : ¬ ((i : Int) < 0) := by omega
  have h2 : (0 : Int) ≤ (i : Int) ∧ (i : Int) < (n : Int) := ⟨by omega, by omega⟩
  rw [if_neg h1, if_pos h2]
  simp

/-- When every entry is done, the completion points are the sum of all
entry weights with default weight one. -/
lemma sumPoints_all_done (xs : List Exercise) (h : xs.all (fun ex => ex.done) = true) :
    sumPoints xs = (xs.map fun ex => ex.points.getD 1).sum := by
  unfold sumPoints
  rw [List.filter_eq_self.mpr]
  intro a ha
  exact List.all_eq_true.mp h a ha

/-- Assigning one dict key leaves lookups of other keys unchanged. -/
lemma dictLookup_insert_ne (entries : List (String × List Exercise)) (k k0 : String)
    (v : List Exercise) (h : k ≠ k0) :
    dictLookup (dictInsert entries k v) k0 = dictLookup entries k0 := by
  induction entries with
  | nil => simp [dictInsert, dictLookup, h]
  | cons a rest ih =>
    obtain ⟨ka, va⟩ := a
    by_cases hk : ka = k
    · subst hk
      simp [dictInsert, dictLookup, h]
    · by_cases hk0 : ka = k0 <;> simp [dictInsert, dictLookup, hk, hk0, ih, Ne.symm h]

/-- Storing the additional session list does not change what the main
session reads back. -/
lemma log_exercises_store_other (log : DailyLog) (exs : List Exercise) :
    (dictLookup (store_log_exercises (some log) "additional" exs) "main").getD []
      = log_exercises (some log) "main" := by
  unfold store_log_exercises log_exercises
  cases h : log.exercises_done with
  | pydict entries =>
    simp [h, dictLookup_insert_ne entries "additional" "main" exs (by decide)]
  | pylist xs =>
    simp [h, dictInsert, dictLookup]

/-- Claim C5. Toggling the last not-done exercise of a non-empty main
session to done makes the handler write rate completed and points equal
to the sum of the entry weights with default weight one, while toggling
an entry back to not-done on an in-progress log keeps the session in
progress: no outcome tag and no completion points are written. -/
theorem C5_session_completion
    (log : DailyLog) (i : Nat)
    (hi : i < (log_exercises (some log) "main").length)
    (hall : (toggleAt (log_exercises (some log) "main") i true).all (fun ex => ex.done) = true)
    (log2 : DailyLog) (i2 : Nat)
    (hi2 : i2 < (log_exercises (some log2) "main").length)
    (hnotall : (toggleAt (log_exercises (some log2) "main") i2 false).all (fun ex => ex.done)
        = false)
    (hrate : log2.difficulty_rate = none) (hpts : log2.points = 0) :
    (handle_exercise_callback (some log) "main" (i : Int) true
        = Except.ok (some (main_completion_log log i), CbOutcome.completedMain
            (sumPoints (toggleAt (log_exercises (some log) "main") i true)))
      ∧ (main_completion_log log i).difficulty_rate = some "completed"
      ∧ (main_completion_log log i).points
          = ((toggleAt (log_exercises (some log) "main") i true).map
              fun ex => ex.points.getD 1).sum)
    ∧ (handle_exercise_callback (some log2) "main" (i2 : Int) false
        = Except.ok (some (toggle_result_log log2 "main" i2 false), CbOutcome.updated)
      ∧ (toggle_result_log log2 "main" i2 false).difficulty_rate = none
      ∧ (toggle_result_log log2 "main" i2 false).points = 0) := by
  refine ⟨⟨?_, rfl, ?_⟩, ?_, ?_, ?_⟩
  · simp only [handle_exercise_callback]
    rw [if_neg (by omega : ¬ ((i : Int) = -1))]
    rw [pyNorm_ofNat _ _ hi]
    simp only []
    rw [if_pos hall, if_neg (by decide : ¬ (("main" : String) = "additional"))]
    rfl
  · have h0 : (main_completion_log log i).points
        = sumPoints (toggleAt (log_exercises (some log) "main") i true) := rfl
    rw [h0, sumPoints_all_done _ hall]
  · simp only [handle_exercise_callback]
    rw [if_neg (by omega : ¬ ((i2 : Int) = -1))]
    rw [pyNorm_ofNat _ _ hi2]
    simp only []
    rw [if_neg (by simp [hnotall])]
    rfl
  · have h0 : (toggle_result_log log2 "main" i2 false).difficulty_rate
        = log2.difficulty_rate := rfl
    rw [h0, hrate]
  · have h0 : (toggle_result_log log2 "main" i2 false).points = log2.points := rfl
    rw [h0, hpts]

/-- Witness for C5: a one-exercise main session completes with one point
when its entry is toggled done, and stays in progress when the toggle
goes the other way. -/
theorem C5_session_completion_witness :
    (handle_exercise_callback
        (some ⟨StoredExercises.pydict [("main", [⟨"a", none, false⟩])], none, 0⟩)
        "main" ((0 : Nat) : Int) true
        = Except.ok
            (some (main_completion_log
              ⟨StoredExercises.pydict [("main", [⟨"a", none, false⟩])], none, 0⟩ 0),
             CbOutcome.completedMain (sumPoints (toggleAt (log_exercises
              (some ⟨StoredExercises.pydict [("main", [⟨"a", none, false⟩])], none, 0⟩)
              "main") 0 true)))
      ∧ (main_completion_log
          ⟨StoredExercises.pydict [("main", [⟨"a", none, false⟩])], none, 0⟩ 0).difficulty_rate
          = some "completed"
      ∧ (main_completion_log
          ⟨StoredExercises.pydict [("main", [⟨"a", none, false⟩])], none, 0⟩ 0).points
          = ((toggleAt (log_exercises
              (some ⟨StoredExercises.pydict [("main", [⟨"a", none, false⟩])], none, 0⟩)
              "main") 0 true).map fun ex => ex.points.getD 1).sum)
    ∧ (handle_exercise_callback
        (some ⟨StoredExercises.pydict [("main", [⟨"b", none, false⟩])], none, 0⟩)
        "main" ((0 : Nat) : Int) false
        = Except.ok
            (some (toggle_result_log
              ⟨StoredExercises.pydict [("main", [⟨"b", none, false⟩])], none, 0⟩
              "main" 0 false),
             CbOutcome.updated)
      ∧ (toggle_result_log
          ⟨StoredExercises.pydict [("main", [⟨"b", none, false⟩])], none, 0⟩
          "main" 0 false).difficulty_rate = none
      ∧ (toggle_result_log
          ⟨StoredExercises.pydict [("main", [⟨"b", none, false⟩])], none, 0⟩
          "main" 0 false).points = 0) :=
  C5_session_completion
    ⟨StoredExercises.pydict [("main", [⟨"a", none, false⟩])], none, 0⟩ 0
    (by decide) (by decide)
    ⟨StoredExercises.pydict [("main", [⟨"b", none, false⟩])], none, 0⟩ 0
    (by decide) (by decide) rfl rfl

/-- Applying the stored-or-skipped rule twice gives the same rate. -/
lemma py_or_skipped_idem (r : Option String) :
    py_or_skipped (some (py_or_skipped r)) = py_or_skipped r := by
  cases r with
  | none => rfl
  | some s => by_cases h : s = "" <;> simp [py_or_skipped, h]

/-- Claim C6, amended: the carry-forward closure is idempotent; on a log
with zero points one run writes zero points and keeps the exercises,
setting the rate to skipped only when no rate was stored (a stored rate,
for example completed with zero points, is preserved); a missing log or
one with nonzero points is left untouched. -/
theorem C6_carry_forward_idempotent (prev : Option DailyLog) (log : DailyLog) :
    close_previous_day_if_pending (close_previous_day_if_pending prev)
      = close_previous_day_if_pending prev
    ∧ (log.points = 0 →
        close_previous_day_if_pending (some log)
          = some { exercises_done := log.exercises_done,
                   difficulty_rate := some (py_or_skipped log.difficulty_rate),
                   points := 0 })
    ∧ (log.points ≠ 0 → close_previous_day_if_pending (some log) = some log)
    ∧ close_previous_day_if_pending (none : Option DailyLog) = none := by
  refine ⟨?_, ?_, ?_, rfl⟩
  · cases prev with
    | none => rfl
    | some l =>
      by_cases hp : l.points = 0
      · simp [close_previous_day_if_pending, hp, update_daily_log, py_or_skipped_idem]
      · simp [close_previous_day_if_pending, hp]
  · intro h0
    simp [close_previous_day_if_pending, h0, update_daily_log]
  · intro hne
    simp [close_previous_day_if_pending, hne]

/-- Counterexample for C6 as stated: a zero-point log that already
carries the rate completed is not set to skipped by the closure; the
stored rate is preserved. -/
theorem C6_preserved_rate_counterexample :
    close_previous_day_if_pending
        (some ⟨StoredExercises.pylist [], some "completed", 0⟩)
      = some ⟨StoredExercises.pylist [], some "completed", 0⟩
    ∧ (some "completed" : Option String) ≠ some "skipped" := by
  exact ⟨rfl, by decide⟩

/-- Witness for C6: a pending log with no rate and zero points is closed
to skipped with zero points, and a second run changes nothing. -/
theorem C6_carry_forward_witness :
    close_previous_day_if_pending (close_previous_day_if_pending
        (some ⟨StoredExercises.pylist [], none, 0⟩))
      = close_previous_day_if_pending (some ⟨StoredExercises.pylist [], none, 0⟩)
    ∧ close_previous_day_if_pending (some ⟨StoredExercises.pylist [], none, 0⟩)
      = some ⟨StoredExercises.pylist [], some (py_or_skipped none), 0⟩ :=
  ⟨(C6_carry_forward_idempotent (some ⟨StoredExercises.pylist [], none, 0⟩)
      ⟨StoredExercises.pylist [], none, 0⟩).1,
   (C6_carry_forward_idempotent (some ⟨StoredExercises.pylist [], none, 0⟩)
      ⟨StoredExercises.pylist [], none, 0⟩).2.1 rfl⟩

/-- Claim C7, amended: the main-session skip (callback index -1) is
rejected as a no-op exactly when the log has nonzero points, in
particular on a completed session with points 12; with zero points the
skip writes rate skipped and zero points. -/
theorem C7_skip_rejection (log : DailyLog) (flag : Bool) :
    (log.points ≠ 0 →
      handle_exercise_callback (some log) "main" (-1) flag
        = Except.ok (some log, CbOutcome.alreadyDone))
    ∧ (log.points = 0 →
      handle_exercise_callback (some log) "main" (-1) flag
        = Except.ok (some (update_daily_log (some log)
            (StoredExercises.pydict (store_log_exercises (some log) "main"
              (log_exercises (some log) "main")))
            (some "skipped") (some 0)), CbOutcome.skippedDay)) := by
  constructor
  · intro h
    simp only [handle_exercise_callback]
    rw [if_pos trivial, if_neg (by decide : ¬ (("main" : String) = "additional")), if_pos h]
  · intro h
    simp only [handle_exercise_callback]
    rw [if_pos trivial, if_neg (by decide : ¬ (("main" : String) = "additional")),
      if_neg (by simp [h])]

/-- Counterexample for C7 as stated: a day whose log has points 3 from
the additional session but no outcome tag (the main session is not
Completed) still has its skip rejected unchanged, while the claim
predicts that the skip would set skipped and zero points. -/
theorem C7_skip_counterexample :
    handle_exercise_callback
        (some ⟨StoredExercises.pydict [("main", [⟨"x", none, false⟩])], none, 3⟩)
        "main" (-1) false
      = Except.ok
          (some ⟨StoredExercises.pydict [("main", [⟨"x", none, false⟩])], none, 3⟩,
           CbOutcome.alreadyDone)
    ∧ (⟨StoredExercises.pydict [("main", [⟨"x", none, false⟩])], none,
        3⟩ : DailyLog).difficulty_rate ≠ some "completed"
    ∧ (⟨StoredExercises.pydict [("main", [⟨"x", none, false⟩])], none,
        3⟩ : DailyLog).points ≠ 0 := by
  refine ⟨by decide, by decide, by decide⟩

/-- Witness for C7: the completed day with 12 points keeps its points
and rate under skip, and a zero-point day is skipped with zero points. -/
theorem C7_skip_witness :
    handle_exercise_callback
        (some ⟨StoredExercises.pydict [("main", [⟨"x", none, true⟩])],
          some "completed", 12⟩) "main" (-1) false
      = Except.ok
          (some ⟨StoredExercises.pydict [("main", [⟨"x", none, true⟩])],
            some "completed", 12⟩, CbOutcome.alreadyDone)
    ∧ handle_exercise_callback
        (some ⟨StoredExercises.pydict [("main", [⟨"y", none, false⟩])], none, 0⟩)
        "main" (-1) false
      = Except.ok
          (some ⟨StoredExercises.pydict [("main", [⟨"y", none, false⟩])],
            some "skipped", 0⟩, CbOutcome.skippedDay) :=
  ⟨(C7_skip_rejection
      ⟨StoredExercises.pydict [("main", [⟨"x", none, true⟩])], some "completed", 12⟩
      false).1 (by decide),
   (C7_skip_rejection
      ⟨StoredExercises.pydict [("main", [⟨"y", none, false⟩])], none, 0⟩
      false).2 rfl⟩

/-- Claim C8. Completing every exercise of the additional session adds
the sum of that session list weights to the points of the day through
the add-points update, leaves the rate untouched and leaves the stored
main-session list untouched; moreover no additional-session call of the
handler ever changes the rate of the day, so only the main-session
completion writes the terminal outcome tag. -/
theorem C8_additional_completion_frame
    (log : DailyLog) (i : Nat)
    (hi : i < (log_exercises (some log) "additional").length)
    (hall : (toggleAt (log_exercises (some log) "additional") i true).all
        (fun ex => ex.done) = true) :
    (handle_exercise_callback (some log) "additional" (i : Int) true
        = Except.ok (some (additional_completion_log log i),
            CbOutcome.completedAdditional
              (sumPoints (toggleAt (log_exercises (some log) "additional") i true)))
      ∧ (additional_completion_log log i).points
          = log.points + ((toggleAt (log_exercises (some log) "additional") i true).map
              fun ex => ex.points.getD 1).sum
      ∧ (additional_completion_log log i).difficulty_rate = log.difficulty_rate
      ∧ log_exercises (some (additional_completion_log log i)) "main"
          = log_exercises (some log) "main")
    ∧ (∀ (lg : DailyLog) (idx : Int) (fg : Bool) (res : Option DailyLog × CbOutcome),
        handle_exercise_callback (some lg) "additional" idx fg = Except.ok res →
        ∀ fl2, res.1 = some fl2 → fl2.difficulty_rate = lg.difficulty_rate) := by
  refine ⟨⟨?_, ?_, rfl, ?_⟩, ?_⟩
  · simp only [handle_exercise_callback]
    rw [if_neg (by omega : ¬ ((i : Int) = -1))]
    rw [pyNorm_ofNat _ _ hi]
    simp only []
    rw [if_pos hall, if_pos trivial]
    rfl
  · have h0 : (additional_completion_log log i).points
        = log.points + sumPoints (toggleAt (log_exercises (some log) "additional") i true) :=
      rfl
    rw [h0, sumPoints_all_done _ hall]
  · exact log_exercises_store_other log _
  · intro lg idx fg res hres fl2 hfl2
    simp only [handle_exercise_callback] at hres
    split at hres
    · rw [if_pos trivial] at hres
      cases hres
      injection hfl2 with h
      subst h
      rfl
    · split at hres
      · exact Except.noConfusion hres
      · split at hres
        · rw [if_pos trivial] at hres
          cases hres
          injection hfl2 with h
          subst h
          rfl
        · cases hres
          injection hfl2 with h
          subst h
          rfl

/-- Witness for C8: finishing the single additional exercise of weight 2
on a day holding 7 points and no rate yields 9 points, no rate, and an
unchanged main list. -/
theorem C8_additional_completion_witness :
    (handle_exercise_callback
        (some ⟨StoredExercises.pydict
          [("main", [⟨"m", none, true⟩]), ("additional", [⟨"p", some 2, false⟩])],
          none, 7⟩) "additional" ((0 : Nat) : Int) true
        = Except.ok
            (some (additional_completion_log
              ⟨StoredExercises.pydict
                [("main", [⟨"m", none, true⟩]), ("additional", [⟨"p", some 2, false⟩])],
                none, 7⟩ 0),
             CbOutcome.completedAdditional
               (sumPoints (toggleAt (log_exercises
                 (some ⟨StoredExercises.pydict
                   [("main", [⟨"m", none, true⟩]), ("additional", [⟨"p", some 2, false⟩])],
                   none, 7⟩) "additional") 0 true)))
      ∧ (additional_completion_log
          ⟨StoredExercises.pydict
            [("main", [⟨"m", none, true⟩]), ("additional", [⟨"p", some 2, false⟩])],
            none, 7⟩ 0).points
          = (7 : Int) + ((toggleAt (log_exercises
              (some ⟨StoredExercises.pydict
                [("main", [⟨"m", none, true⟩]), ("additional", [⟨"p", some 2, false⟩])],
                none, 7⟩) "additional") 0 true).map fun ex => ex.points.getD 1).sum
      ∧ (additional_completion_log
          ⟨StoredExercises.pydict
            [("main", [⟨"m", none, true⟩]), ("additional", [⟨"p", some 2, false⟩])],
            none, 7⟩ 0).difficulty_rate = none
      ∧ log_exercises (some (additional_completion_log
          ⟨StoredExercises.pydict
            [("main", [⟨"m", none, true⟩]), ("additional", [⟨"p", some 2, false⟩])],
            none, 7⟩ 0)) "main"
          = log_exercises
              (some ⟨StoredExercises.pydict
                [("main", [⟨"m", none, true⟩]), ("additional", [⟨"p", some 2, false⟩])],
                none, 7⟩) "main")
    ∧ (∀ (lg : DailyLog) (idx : Int) (fg : Bool) (res : Option DailyLog × CbOutcome),
        handle_exercise_callback (some lg) "additional" idx fg = Except.ok res →
        ∀ fl2, res.1 = some fl2 → fl2.difficulty_rate = lg.difficulty_rate) :=
  C8_additional_completion_frame
    ⟨StoredExercises.pydict
      [("main", [⟨"m", none, true⟩]), ("additional", [⟨"p", some 2, false⟩])],
      none, 7⟩ 0 (by decide) (by decide)

/-- Claim C9. The delivery-error part of the claim holds: safe_send
swallows exactly the unreachable-recipient error and returns normally,
any other delivery error propagates out of safe_send, and a firing with
no configured plan completes without raising; but for every firing whose
user has a configured plan, scheduled_push raises ValueError before any
delivery attempt, because it unpacks the three-element row returned by
get_plan_for_date into the two targets is_rest, exercises - so the
claimed completes-without-raising fails whenever a plan exists,
regardless of the delivery outcome. -/
theorem C9_plan_unpack_value_error :
    safe_send SendOutcome.forbidden = Except.ok ()
    ∧ send_message_result SendOutcome.forbidden = Except.error PyErr.telegramForbidden
    ∧ safe_send SendOutcome.otherError = Except.error PyErr.telegramError
    ∧ (∀ (prevLog existingLog : Option DailyLog),
        (scheduled_push (some ()) prevLog none existingLog SendOutcome.forbidden).isOk
          = true)
    ∧ (∀ (prevLog existingLog : Option DailyLog) (row : PlanRow) (o : SendOutcome),
        scheduled_push (some ()) prevLog (some row) existingLog o
          = Except.error PyErr.valueError) := by
  refine ⟨rfl, rfl, rfl, ?_, ?_⟩
  · intro prevLog existingLog
    simp only [scheduled_push, safe_send, send_message_result]
    split <;> rfl
  · intro prevLog existingLog row o
    rfl

/-- Claim C10. An event from a chat without a user record is rejected by
the middleware once the user count reached MAX_USERS, with a notice when
the event is a Message and with no new user row, while events from
registered chats always pass regardless of the count; consequently the
registered count never grows past MAX_USERS along the message path. -/
theorem C10_user_cap (users : List Int) (e : TgEvent) (c : Int) :
    (e.chat = some c → c ∉ users → MAX_USERS ≤ users.length →
      access_middleware users e ≠ GateResult.passed
      ∧ (e.isMessage = true → access_middleware users e = GateResult.rejectedNotice)
      ∧ message_path_step users e = users)
    ∧ (e.chat = some c → c ∈ users → access_middleware users e = GateResult.passed)
    ∧ (users.length ≤ MAX_USERS → (message_path_step users e).length ≤ MAX_USERS) := by
  refine ⟨?_, ?_, ?_⟩
  · intro hc hni hcnt
    have hgate : access_middleware users e
        = (if e.isMessage then GateResult.rejectedNotice else GateResult.rejectedSilent) := by
      simp [access_middleware, hc, hni, hcnt]
    refine ⟨?_, ?_, ?_⟩
    · rw [hgate]
      cases e.isMessage <;> simp
    · intro hm
      rw [hgate, hm]
      simp
    · cases he : e.isMessage <;>
        simp only [message_path_step, hgate, he, if_true, if_false, Bool.false_eq_true]
  · intro hc hin
    simp [access_middleware, hc, hin]
  · intro hlen
    by_cases hg : access_middleware users e = GateResult.passed
    · cases hc : e.chat with
      | none => simpa [message_path_step, hg, hc] using hlen
      | some c2 =>
        by_cases hin : c2 ∈ users
        · simpa [message_path_step, hg, hc, hin] using hlen
        · have hlt : ¬ (MAX_USERS ≤ users.length) := by
            intro hge
            rw [show access_middleware users e
                = (if e.isMessage then GateResult.rejectedNotice
                   else GateResult.rejectedSilent) from by
              simp [access_middleware, hc, hin, hge]] at hg
            cases he : e.isMessage <;> rw [he] at hg <;> simp at hg
          simp only [message_path_step, hg, hc, hin, if_false]
          simp only [MAX_USERS] at hlt ⊢
          simp only [List.length_cons]
          omega
    · cases hgv : access_middleware users e with
      | passed => exact absurd hgv hg
      | rejectedNotice => simpa [message_path_step, hgv] using hlen
      | rejectedSilent => simpa [message_path_step, hgv] using hlen

/-- Witness for C10: with two registered chats, a message from a third
chat is rejected with a notice and adds no row, a message from a
registered chat passes, and the count stays at two. -/
theorem C10_user_cap_witness :
    (access_middleware [10, 20] ⟨some 30, true⟩ ≠ GateResult.passed
      ∧ (true = true → access_middleware [10, 20] ⟨some 30, true⟩ = GateResult.rejectedNotice)
      ∧ message_path_step [10, 20] ⟨some 30, true⟩ = [10, 20])
    ∧ access_middleware [10, 20] ⟨some 10, true⟩ = GateResult.passed
    ∧ (message_path_step [10, 20] ⟨some 30, true⟩).length ≤ MAX_USERS :=
  ⟨(C10_user_cap [10, 20] ⟨some 30, true⟩ 30).1 rfl (by decide) (by decide),
   (C10_user_cap [10, 20] ⟨some 10, true⟩ 10).2.1 rfl (by decide),
   (C10_user_cap [10, 20] ⟨some 30, true⟩ 30).2.2 (by decide)⟩
